import Mathlib

/-!
Verification development for the squid-orbit-simulator core.

The Rust source operates on `f64`; this embedding idealises IEEE doubles as
real numbers, which is the semantics the specification describes.  External
collaborator crates (satkit SGP4 propagation, sun ephemeris, frame
transforms, NRLMSISE atmosphere, nav_types geodesy) are modelled as opaque
function parameters gathered in an environment record, exactly as the spec
lists them as consumed interfaces; the repository code itself is translated
definition by definition.

Astronomy constants come from satkit's constant table (standard values, per
spec section 6: Earth radius, Sun radius and the WGS-84 semi-major axis are
the standard astronomy constants); times are modelled the way satkit stores
an Instant, as a (real-valued) count of microseconds on the Unix scale, so
that Duration::from_hours adds hours times 3.6e9 microseconds and as_hours
divides by the same factor.
-/

noncomputable section

namespace SquidOrbit

/-- Standard equatorial Earth radius in metres (satkit consts EARTH_RADIUS). -/
def EARTH_RADIUS : ℝ := 6378137

/-- Standard solar radius in metres (satkit consts SUN_RADIUS). -/
def SUN_RADIUS : ℝ := 696000000

/-- WGS-84 semi-major axis in metres (satkit consts WGS84_A). -/
def WGS84_A : ℝ := 6378137

/-- Solar constant, W per square metre (literal 1361.0 in the source). -/
def SOLAR_CONSTANT_W_PER_M2 : ℝ := 1361

/-- The literal 1.496e11 appearing in both irradiance sanity assertions. -/
def AU_M : ℝ := 149600000000

/-- Microseconds per hour: Duration::from_hours h advances an Instant by
this many microseconds per hour. -/
def usPerHour : ℝ := 3600000000

/-- A 3-vector of reals, standing for the `[f64; 3]` / nalgebra Vector3
values of the source. -/
structure V3 where
  x : ℝ
  y : ℝ
  z : ℝ

/-- Dot product of two 3-vectors. -/
def dot3 (a b : V3) : ℝ := a.x * b.x + a.y * b.y + a.z * b.z

/-- Componentwise difference. -/
def v3sub (a b : V3) : V3 := ⟨a.x - b.x, a.y - b.y, a.z - b.z⟩

/-- Scalar multiple. -/
def v3smul (c : ℝ) (a : V3) : V3 := ⟨c * a.x, c * a.y, c * a.z⟩

/-- Source `pythag_3`: Euclidean norm of a 3-vector (also the value of the
nalgebra norm calls in the irradiance functions). -/
def pythag_3 (v : V3) : ℝ := Real.sqrt (v.x ^ 2 + v.y ^ 2 + v.z ^ 2)

/-- Rust `f64::trunc`, rounding toward zero, as an integer. -/
def rustTrunc (x : ℝ) : ℤ := if 0 ≤ x then ⌊x⌋ else ⌈x⌉

/-- Rust `f64::fract`: `x - x.trunc()`. -/
def rustFract (x : ℝ) : ℝ := x - rustTrunc x

/-- Rust `%` on floats: remainder with the sign of the dividend,
`x - y * (x / y).trunc()`. -/
def rustRem (x y : ℝ) : ℝ := x - y * rustTrunc (x / y)

/-- Rust `f64::clamp(lo, hi)`. -/
def rustClamp (x lo hi : ℝ) : ℝ := if x < lo then lo else if hi < x then hi else x

/-- Julian date of an instant held as microseconds on the Unix scale
(satkit Instant::as_jd). -/
def jdOf (t : ℝ) : ℝ := t / 86400000000 + 2440587.5

/-- Source `calculate_local_solar_time_hours`: local solar time in hours.
The instant argument is the Instant's microsecond count. -/
def calculate_local_solar_time_hours (longitude_deg t : ℝ) : ℝ :=
  let jd := jdOf t + 0.5
  let fractional_day := rustFract jd
  let utc_hours := fractional_day * 24
  let local_time := utc_hours + longitude_deg / 15
  rustRem (local_time + 24) 24

/-- Modelled from the spec (claim C7 wording): a value wrapped into the
half-open interval from 0 to 24. -/
def wrap24 (x : ℝ) : ℝ := x - 24 * ⌊x / 24⌋

/-- Source `calculate_elevation_from_location_km`. -/
def calculate_elevation_from_location_km (position_km : V3) : ℝ :=
  pythag_3 position_km - EARTH_RADIUS / 1000

/-- Source `calculate_elevation_angle_degrees`, with the station's ECEF
triple (produced by the external nav_types conversion) passed explicitly. -/
def calculate_elevation_angle_degrees (position_km station_ecef_m : V3) : ℝ :=
  let los := v3sub (v3smul 1000 position_km) station_ecef_m
  let norm_ground := pythag_3 station_ecef_m
  let norm_los := pythag_3 los
  let cos_theta := dot3 station_ecef_m los / (norm_ground * norm_los)
  let theta_rad := Real.arccos cos_theta
  let elevation_rad := Real.pi / 2 - theta_rad
  elevation_rad * (180 / Real.pi)

/-- Source `calculate_sun_irradiance_received_approx_w_per_m2` (model A,
angular cones).  The sun vector argument is the ITRF sun position that the
source obtains from the external ephemeris and frame-transform services at
the given instant.  The two source assertions become the two guards: a
violated assertion panics, modelled as `none`. -/
def calculate_sun_irradiance_received_approx_w_per_m2 (sat sun : V3) : Option ℝ :=
  let sat_mag_m := pythag_3 sat
  let sun_mag_m := pythag_3 sun
  let cos_theta := rustClamp (dot3 sat sun / (sat_mag_m * sun_mag_m)) (-1) 1
  let sun_earth_sat_angle_rad := Real.arccos cos_theta
  if ¬(0.9 * AU_M < sun_mag_m ∧ sun_mag_m < 1.1 * AU_M) then none
  else if ¬(EARTH_RADIUS < sat_mag_m ∧ sat_mag_m < 5 * EARTH_RADIUS) then none
  else
    let alpha := Real.arcsin (SUN_RADIUS / sun_mag_m)
    let beta := Real.arcsin (WGS84_A / sat_mag_m)
    if sun_earth_sat_angle_rad < alpha - beta then
      some SOLAR_CONSTANT_W_PER_M2
    else if sun_earth_sat_angle_rad < alpha + beta then
      let delta := sun_earth_sat_angle_rad - (alpha - beta)
      let visible_fraction := 1 - rustClamp ((delta / (2 * beta)) ^ 2) 0 1
      some (visible_fraction * SOLAR_CONSTANT_W_PER_M2)
    else
      some 0

/-- Source `calculate_sun_irradiance_received_w_per_m2` (model B, shadow
cones).  Sun vector as in the approximate model; assertions become
guards returning `none`. -/
def calculate_sun_irradiance_received_w_per_m2 (sat sun : V3) : Option ℝ :=
  let sat_mag_m := pythag_3 sat
  let sun_mag_m := pythag_3 sun
  if ¬(0.9 * AU_M < sun_mag_m ∧ sun_mag_m < 1.1 * AU_M) then none
  else if ¬(EARTH_RADIUS < sat_mag_m ∧ sat_mag_m < 5 * EARTH_RADIUS) then none
  else
    let r_hat := v3smul (1 / sun_mag_m) sun
    let proj_length := dot3 sat r_hat
    let perpendicular_vector := v3sub sat (v3smul proj_length r_hat)
    let perpendicular_dist := pythag_3 perpendicular_vector
    let theta_umbra := (EARTH_RADIUS - SUN_RADIUS) / sun_mag_m
    let r_umbra := (proj_length - sun_mag_m) * theta_umbra
    let theta_penumbra := (EARTH_RADIUS + SUN_RADIUS) / sun_mag_m
    let r_penumbra := (proj_length - sun_mag_m) * theta_penumbra
    if proj_length < 0 then some SOLAR_CONSTANT_W_PER_M2
    else if perpendicular_dist < r_umbra then some 0
    else if perpendicular_dist < r_penumbra then
      let fraction := (perpendicular_dist - r_umbra) / (r_penumbra - r_umbra)
      some ((1 - rustClamp fraction 0 1) * SOLAR_CONSTANT_W_PER_M2)
    else some SOLAR_CONSTANT_W_PER_M2

/-- Source struct GroundStation (initial_state_model.rs).  The lazily
cached ECEF triple (a OnceCell) is modelled as an Option recording whether
the cell has been filled. -/
structure GroundStation where
  name : String
  latitude_deg : ℝ
  longitude_deg : ℝ
  elevation_m : Option ℝ
  altitude_m : ℝ
  min_elevation_deg : ℝ
  ecef_cache : Option V3

/-- Source GroundStation::new: validates the coordinate ranges and builds
the station with an empty ECEF cache. -/
def GroundStation.new (name : String) (latitude_deg longitude_deg : ℝ)
    (elevation_m : Option ℝ) (altitude_m min_elevation_deg : ℝ) :
    Except String GroundStation :=
  if ¬(-90 ≤ latitude_deg ∧ latitude_deg ≤ 90) then
    Except.error "Latitude must be between -90 and 90 degrees"
  else if ¬(-180 ≤ longitude_deg ∧ longitude_deg ≤ 180) then
    Except.error "Longitude must be between -180 and 180 degrees"
  else
    Except.ok
      { name := name
        latitude_deg := latitude_deg
        longitude_deg := longitude_deg
        elevation_m := elevation_m
        altitude_m := altitude_m
        min_elevation_deg := min_elevation_deg
        ecef_cache := none }

/-- Source struct Satellite. -/
structure Satellite where
  name : String
  drag_coefficient : ℝ
  drag_area_m2 : ℝ

/-- Source struct SimulationSettings. -/
structure SimulationSettings where
  max_days : ℝ
  step_interval_hours : ℝ
  drag_power_enable_space_weather : Bool

/-- Source struct TleData; the epoch Instant is its microsecond count. -/
structure TleData where
  name : String
  intl_desig : String
  sat_num : ℤ
  desig_year : ℤ
  desig_launch : ℤ
  desig_piece : String
  epoch : ℝ
  mean_motion_dot : ℝ
  mean_motion_dot_dot : ℝ
  bstar : ℝ
  ephem_type : ℕ
  element_num : ℤ
  inclination : ℝ
  raan : ℝ
  eccen : ℝ
  arg_of_perigee : ℝ
  mean_anomaly : ℝ
  mean_motion : ℝ
  rev_num : ℤ

/-- Source struct InitialSimulationState. -/
structure InitialSimulationState where
  tle : TleData
  ground_stations : List GroundStation
  satellite : Satellite
  simulation_settings : SimulationSettings

/-- Source `calculate_power_from_atmospheric_drag_watts`, with the density
returned by the external NRLMSISE call passed in as rho. -/
def calculate_power_from_atmospheric_drag_watts (satellite : Satellite)
    (rho_density_kg_per_m3 speed_m_per_s : ℝ) : ℝ :=
  0.5 * satellite.drag_coefficient * rho_density_kg_per_m3
    * satellite.drag_area_m2 * speed_m_per_s ^ 3

/-- The external collaborator services consumed by the core (spec section 6),
gathered into one record.  tau is the type of the satkit TLE working copy
that the SGP4 propagator may mutate; propagate returns the mutated copy
together with the TEME position and velocity, or none when SGP4 reports a
non-success code. -/
structure Env (tau : Type) where
  propagate : tau → ℝ → tau × Option (V3 × V3)
  temeToItrf : ℝ → V3 → V3
  sunItrf : ℝ → V3
  density : ℝ → ℝ → ℝ → ℝ → Bool → ℝ
  latitudeDeg : V3 → ℝ
  longitudeDeg : V3 → ℝ
  stationEcef : GroundStation → V3
  toSatkitTle : TleData → tau

/-- Source struct SimulationStateAtStep: the per-step telemetry record. -/
structure SimulationStateAtStep where
  time : ℝ
  hours_since_epoch : ℝ
  position_itrf : V3
  velocity_itrf : V3
  speed_m_per_s : ℝ
  elevation_km : ℝ
  elevation_angles_degrees : List ℝ
  drag_power_watts : ℝ
  irradiance_approx_w_per_m2 : ℝ
  irradiance_w_per_m2 : ℝ
  local_time_hours : ℝ
  is_deorbited : Bool

/-- Source struct SimulationRun. -/
structure SimulationRun (tau : Type) where
  initial : InitialSimulationState
  satkit_tle_mut : tau
  current_sim_time : ℝ
  latest_telemetry : Option SimulationStateAtStep

/-- Source SimulationRun::new. -/
def SimulationRun.new {tau : Type} (env : Env tau) (initial : InitialSimulationState) :
    SimulationRun tau :=
  { initial := initial
    satkit_tle_mut := env.toSatkitTle initial.tle
    current_sim_time := initial.tle.epoch
    latest_telemetry := none }

/-- Source SimulationRun::hours_since_epoch. -/
def SimulationRun.hoursSinceEpoch {tau : Type} (run : SimulationRun tau) : ℝ :=
  (run.current_sim_time - run.initial.tle.epoch) / usPerHour

/-- How a step call can fail: an SGP4 error (the Err return of the source)
or a panic raised by one of the irradiance sanity assertions. -/
inductive StepErr where
  | sgp4Error
  | panicked
deriving DecidableEq

/-- The hard-coded frame-transform horizon
Instant::new(1767250888000 * 1000), in microseconds. -/
def maxTfTime : ℝ := 1767250888000000

/-- Source SimulationRun::step, translated statement by statement.  The
pair returned is the Result together with the run as left behind by the
call (the SGP4 call mutates the TLE working copy even when it fails; the
clock and telemetry are only touched at the end of a successful pass). -/
def SimulationRun.step {tau : Type} (env : Env tau) (run : SimulationRun tau) :
    Except StepErr SimulationStateAtStep × SimulationRun tau :=
  let settings := run.initial.simulation_settings
  let t := run.current_sim_time
  let pr := env.propagate run.satkit_tle_mut t
  let run1 : SimulationRun tau := { run with satkit_tle_mut := pr.1 }
  match pr.2 with
  | none => (Except.error StepErr.sgp4Error, run1)
  | some rv =>
    let tf_time := if t < maxTfTime then t else maxTfTime
    let position_itrf := env.temeToItrf tf_time rv.1
    let velocity_itrf := env.temeToItrf tf_time rv.2
    let speed_m_per_s := pythag_3 velocity_itrf
    let position_km := v3smul (1 / 1000) position_itrf
    let elevation_km := calculate_elevation_from_location_km position_km
    let elevation_angles_degrees := run.initial.ground_stations.map
      (fun station => calculate_elevation_angle_degrees position_km (env.stationEcef station))
    let drag_power_watts := calculate_power_from_atmospheric_drag_watts
      run.initial.satellite
      (env.density elevation_km (env.latitudeDeg position_itrf)
        (env.longitudeDeg position_itrf) t settings.drag_power_enable_space_weather)
      speed_m_per_s
    let local_time_hours := calculate_local_solar_time_hours
      (env.longitudeDeg position_itrf) t
    let sun := env.sunItrf t
    match calculate_sun_irradiance_received_approx_w_per_m2 position_itrf sun,
        calculate_sun_irradiance_received_w_per_m2 position_itrf sun with
    | some irradiance_approx, some irradiance =>
      let is_deorbited := decide (elevation_km < 100)
      let new_time := t + settings.step_interval_hours * usPerHour
      let run2 : SimulationRun tau := { run1 with current_sim_time := new_time }
      let simulation_state : SimulationStateAtStep :=
        { time := t
          hours_since_epoch := run2.hoursSinceEpoch
          position_itrf := position_itrf
          velocity_itrf := velocity_itrf
          speed_m_per_s := speed_m_per_s
          elevation_km := elevation_km
          elevation_angles_degrees := elevation_angles_degrees
          drag_power_watts := drag_power_watts
          irradiance_approx_w_per_m2 := irradiance_approx
          irradiance_w_per_m2 := irradiance
          local_time_hours := local_time_hours
          is_deorbited := is_deorbited }
      (Except.ok simulation_state, { run2 with latest_telemetry := some simulation_state })
    | _, _ => (Except.error StepErr.panicked, run1)

/-!
Step-loop protocol (spawn_stepper_loop in ui/sim_background_worker.rs and
its identical private copy in ui/actions.rs).

Status lines are format! strings whose shape and numeric payload we model
with an inductive type (decimal rendering of floats is outside the
embedding).  Wall-clock pacing (`real_time_start.elapsed() >= 600 ms`) is
nondeterministic, so it is an oracle: `elapsed k` tells whether the budget
check taken after the k-th step of the current batch fires.  Only the
worker thread ever locks the run (the UI reads telemetry solely through the
channel), so lock acquisition cannot fail and the poisoned-lock arm is dead;
the channel receiver is assumed alive, so sends succeed.  Loops are given
explicit fuel; the returned trace lists the result of every step() call
made, in order, and the message list is everything sent on the channel.
-/

/-- The shape and numeric payload of a worker status line. -/
inductive StatusLine where
  | reachedMax (max_hours : ℝ)
  | deorbited (deorbit_h : ℝ)
  | simRunning (days : ℝ)
  | simRunningNoTelemetry

/-- Source struct StepOutcome (ui/actions.rs). -/
structure StepOutcome where
  done : Bool
  status_line : StatusLine
  latest_telemetry : Option SimulationStateAtStep

/-- A message on the worker channel: Result with a StepOutcome, the error
side carrying the formatted step error. -/
def ChannelMsg : Type := Except StepErr StepOutcome

/-- Result of one batch (the inner loop): a message to send, a panic that
kills the thread without a message, or fuel exhaustion (an artefact of the
bounded model). -/
inductive InnerRes where
  | msg (m : ChannelMsg)
  | panicked
  | fuelOut

/-- The inner batching loop of spawn_stepper_loop: repeatedly check the
max-time bound, step, handle deorbit, and after each step consult the
wall-clock oracle; k counts the steps already taken in this batch. -/
def innerLoop {tau : Type} (env : Env tau) (elapsed : ℕ → Bool) (max_hours step_interval_h : ℝ) :
    ℕ → ℕ → SimulationRun tau →
    InnerRes × SimulationRun tau × List (Except StepErr SimulationStateAtStep)
  | 0, _, run => (InnerRes.fuelOut, run, [])
  | fuel + 1, k, run =>
    if max_hours ≤ run.hoursSinceEpoch then
      (InnerRes.msg (Except.ok
        { done := true
          status_line := StatusLine.reachedMax max_hours
          latest_telemetry := run.latest_telemetry }), run, [])
    else
      match run.step env with
      | (Except.error StepErr.sgp4Error, run') =>
        (InnerRes.msg (Except.error StepErr.sgp4Error), run', [Except.error StepErr.sgp4Error])
      | (Except.error StepErr.panicked, run') =>
        (InnerRes.panicked, run', [Except.error StepErr.panicked])
      | (Except.ok telemetry, run') =>
        if telemetry.is_deorbited then
          (InnerRes.msg (Except.ok
            { done := true
              status_line := StatusLine.deorbited
                (max (telemetry.hours_since_epoch - step_interval_h) 0)
              latest_telemetry := run'.latest_telemetry }), run', [Except.ok telemetry])
        else if elapsed k then
          (InnerRes.msg (Except.ok
            { done := match run'.latest_telemetry with
                | some x => decide (max_hours ≤ x.hours_since_epoch)
                | none => false
              status_line := match run'.latest_telemetry with
                | some tt => StatusLine.simRunning (tt.hours_since_epoch / 24)
                | none => StatusLine.simRunningNoTelemetry
              latest_telemetry := run'.latest_telemetry }), run', [Except.ok telemetry])
        else
          let rest := innerLoop env elapsed max_hours step_interval_h fuel (k + 1) run'
          (rest.1, rest.2.1, Except.ok telemetry :: rest.2.2)

/-- Whether a channel message makes the outer loop stop after sending it
(`done_now` in the source): an Err, or an Ok outcome with done set. -/
def doneNow (m : ChannelMsg) : Bool :=
  match m with
  | Except.ok o => o.done
  | Except.error _ => true

/-- The outer loop of spawn_stepper_loop: run one batch, send its message,
stop when the batch said so.  Returns the channel contents, the final run
and the concatenated step trace. -/
def workerLoop {tau : Type} (env : Env tau) (elapsed : ℕ → ℕ → Bool) (innerFuel : ℕ) :
    ℕ → SimulationRun tau →
    List ChannelMsg × SimulationRun tau × List (Except StepErr SimulationStateAtStep)
  | 0, run => ([], run, [])
  | fuel + 1, run =>
    let max_hours := run.initial.simulation_settings.max_days * 24
    let step_interval_h := run.initial.simulation_settings.step_interval_hours
    match innerLoop env (elapsed fuel) max_hours step_interval_h innerFuel 0 run with
    | (InnerRes.fuelOut, run', trace) => ([], run', trace)
    | (InnerRes.panicked, run', trace) => ([], run', trace)
    | (InnerRes.msg m, run', trace) =>
      if doneNow m then ([m], run', trace)
      else
        let rest := workerLoop env elapsed innerFuel fuel run'
        (m :: rest.1, rest.2.1, trace ++ rest.2.2)

/-- Whether a step-trace entry is a successful step whose telemetry
reports deorbit. -/
def isDeorbitOk (e : Except StepErr SimulationStateAtStep) : Bool :=
  match e with
  | Except.ok r => r.is_deorbited
  | Except.error _ => false

/-! Helper lemmas. -/

lemma pythag_3_nonneg (v : V3) : 0 ≤ pythag_3 v := Real.sqrt_nonneg _

lemma pythag_3_axis_abs (a : ℝ) : pythag_3 ⟨a, 0, 0⟩ = |a| := by
  simp only [pythag_3]
  have h : a ^ 2 + (0 : ℝ) ^ 2 + (0 : ℝ) ^ 2 = a ^ 2 := by ring
  rw [h, Real.sqrt_sq_eq_abs]

lemma rustClamp_bounds (x : ℝ) {lo hi : ℝ} (h : lo ≤ hi) :
    lo ≤ rustClamp x lo hi ∧ rustClamp x lo hi ≤ hi := by
  unfold rustClamp
  split_ifs <;> constructor <;> linarith

lemma dot3_le_pythag_mul (a b : V3) : dot3 a b ≤ pythag_3 a * pythag_3 b := by
  have hsq : dot3 a b ^ 2 ≤
      (a.x ^ 2 + a.y ^ 2 + a.z ^ 2) * (b.x ^ 2 + b.y ^ 2 + b.z ^ 2) := by
    simp only [dot3]
    nlinarith [sq_nonneg (a.x * b.y - a.y * b.x), sq_nonneg (a.x * b.z - a.z * b.x),
      sq_nonneg (a.y * b.z - a.z * b.y)]
  rcases le_or_lt (dot3 a b) 0 with h | h
  · exact h.trans (mul_nonneg (Real.sqrt_nonneg _) (Real.sqrt_nonneg _))
  · have h1 : dot3 a b = Real.sqrt (dot3 a b ^ 2) := (Real.sqrt_sq h.le).symm
    rw [h1, pythag_3, pythag_3, ← Real.sqrt_mul (by positivity)]
    exact Real.sqrt_le_sqrt hsq

lemma one_sub_rustClamp_unit_mul_mem (x : ℝ) :
    0 ≤ (1 - rustClamp x 0 1) * SOLAR_CONSTANT_W_PER_M2 ∧
    (1 - rustClamp x 0 1) * SOLAR_CONSTANT_W_PER_M2 ≤ 1361 := by
  obtain ⟨hc0, hc1⟩ := rustClamp_bounds x (show (0 : ℝ) ≤ 1 by norm_num)
  constructor
  · apply mul_nonneg (by linarith)
    norm_num [SOLAR_CONSTANT_W_PER_M2]
  · simp only [SOLAR_CONSTANT_W_PER_M2]
    nlinarith [hc0, hc1]

lemma approx_irradiance_range (sat sun : V3)
    (h1 : 0.9 * AU_M < pythag_3 sun) (h2 : pythag_3 sun < 1.1 * AU_M)
    (h3 : EARTH_RADIUS < pythag_3 sat) (h4 : pythag_3 sat < 5 * EARTH_RADIUS) :
    ∃ v, calculate_sun_irradiance_received_approx_w_per_m2 sat sun = some v ∧
      0 ≤ v ∧ v ≤ 1361 := by
  simp only [calculate_sun_irradiance_received_approx_w_per_m2]
  rw [if_neg (by push_neg; exact ⟨h1, h2⟩),
    if_neg (by push_neg; exact ⟨h3, h4⟩)]
  split_ifs
  · exact ⟨_, rfl, by norm_num [SOLAR_CONSTANT_W_PER_M2]⟩
  · exact ⟨_, rfl, one_sub_rustClamp_unit_mul_mem _⟩
  · exact ⟨_, rfl, by norm_num⟩

lemma cone_irradiance_range (sat sun : V3)
    (h1 : 0.9 * AU_M < pythag_3 sun) (h2 : pythag_3 sun < 1.1 * AU_M)
    (h3 : EARTH_RADIUS < pythag_3 sat) (h4 : pythag_3 sat < 5 * EARTH_RADIUS) :
    ∃ v, calculate_sun_irradiance_received_w_per_m2 sat sun = some v ∧
      0 ≤ v ∧ v ≤ 1361 := by
  simp only [calculate_sun_irradiance_received_w_per_m2]
  rw [if_neg (by push_neg; exact ⟨h1, h2⟩),
    if_neg (by push_neg; exact ⟨h3, h4⟩)]
  split_ifs
  · exact ⟨_, rfl, by norm_num [SOLAR_CONSTANT_W_PER_M2]⟩
  · exact ⟨_, rfl, by norm_num⟩
  · exact ⟨_, rfl, one_sub_rustClamp_unit_mul_mem _⟩
  · exact ⟨_, rfl, by norm_num [SOLAR_CONSTANT_W_PER_M2]⟩

/-- C4: for every satellite and sun position passing the sanity assertions
(satellite radius strictly between the Earth radius and five Earth radii,
Sun-Earth distance within 10 percent of 1 AU), both irradiance functions
return a value, and that value lies in the closed interval from 0 to
1361 W per square metre. -/
theorem irradiance_models_in_range (sat sun : V3)
    (h1 : 0.9 * AU_M < pythag_3 sun) (h2 : pythag_3 sun < 1.1 * AU_M)
    (h3 : EARTH_RADIUS < pythag_3 sat) (h4 : pythag_3 sat < 5 * EARTH_RADIUS) :
    (∃ v, calculate_sun_irradiance_received_approx_w_per_m2 sat sun = some v ∧
      0 ≤ v ∧ v ≤ 1361) ∧
    (∃ v, calculate_sun_irradiance_received_w_per_m2 sat sun = some v ∧
      0 ≤ v ∧ v ≤ 1361) :=
  ⟨approx_irradiance_range sat sun h1 h2 h3 h4,
    cone_irradiance_range sat sun h1 h2 h3 h4⟩

/-- Witness for the C4 theorem at the concrete full-sunlight geometry of
the spec scenarios. -/
theorem irradiance_models_in_range_witness :
    (∃ v, calculate_sun_irradiance_received_approx_w_per_m2
      ⟨EARTH_RADIUS + 400000, 0, 0⟩ ⟨AU_M, 0, 0⟩ = some v ∧ 0 ≤ v ∧ v ≤ 1361) ∧
    (∃ v, calculate_sun_irradiance_received_w_per_m2
      ⟨EARTH_RADIUS + 400000, 0, 0⟩ ⟨AU_M, 0, 0⟩ = some v ∧ 0 ≤ v ∧ v ≤ 1361) := by
  have hsat : pythag_3 ⟨EARTH_RADIUS + 400000, 0, 0⟩ = EARTH_RADIUS + 400000 := by
    rw [pythag_3_axis_abs, abs_of_nonneg (by norm_num [EARTH_RADIUS])]
  have hsun : pythag_3 ⟨AU_M, 0, 0⟩ = AU_M := by
    rw [pythag_3_axis_abs, abs_of_nonneg (by norm_num [AU_M])]
  exact irradiance_models_in_range _ _
    (by rw [hsun]; norm_num [AU_M]) (by rw [hsun]; norm_num [AU_M])
    (by rw [hsat]; norm_num [EARTH_RADIUS]) (by rw [hsat]; norm_num [EARTH_RADIUS])

/-- C5: under the sanity assertions the cone-based model never returns a
strictly intermediate penumbra value: the result is exactly 0 or exactly
1361, because the penumbra radius it compares against is negative whenever
the projection is at most the satellite radius, itself far below the
Sun-Earth distance, while the perpendicular distance is a norm and hence
non-negative. -/
theorem cone_irradiance_never_penumbra (sat sun : V3)
    (h1 : 0.9 * AU_M < pythag_3 sun) (h2 : pythag_3 sun < 1.1 * AU_M)
    (h3 : EARTH_RADIUS < pythag_3 sat) (h4 : pythag_3 sat < 5 * EARTH_RADIUS) :
    calculate_sun_irradiance_received_w_per_m2 sat sun = some 0 ∨
    calculate_sun_irradiance_received_w_per_m2 sat sun = some 1361 := by
  have hsun_pos : 0 < pythag_3 sun := by
    have : (0 : ℝ) < 0.9 * AU_M := by norm_num [AU_M]
    linarith
  simp only [calculate_sun_irradiance_received_w_per_m2]
  rw [if_neg (by push_neg; exact ⟨h1, h2⟩),
    if_neg (by push_neg; exact ⟨h3, h4⟩)]
  split_ifs with hp hu hpen
  · right
    simp [SOLAR_CONSTANT_W_PER_M2]
  · left
    rfl
  · exfalso
    have hproj : dot3 sat (v3smul (1 / pythag_3 sun) sun) ≤ pythag_3 sat := by
      have hd : dot3 sat (v3smul (1 / pythag_3 sun) sun)
          = (1 / pythag_3 sun) * dot3 sat sun := by
        simp only [dot3, v3smul]
        ring
      rw [hd]
      have hcs := dot3_le_pythag_mul sat sun
      rw [div_mul_eq_mul_div, one_mul, div_le_iff₀ hsun_pos]
      linarith [mul_le_mul_of_nonneg_right hcs (le_of_lt hsun_pos)]
    have hsmall : pythag_3 sat < pythag_3 sun := by
      have h5 : 5 * EARTH_RADIUS < 0.9 * AU_M := by norm_num [EARTH_RADIUS, AU_M]
      linarith
    have hpen_neg :
        (dot3 sat (v3smul (1 / pythag_3 sun) sun) - pythag_3 sun) *
          ((EARTH_RADIUS + SUN_RADIUS) / pythag_3 sun) < 0 := by
      apply mul_neg_of_neg_of_pos
      · linarith
      · apply div_pos (by norm_num [EARTH_RADIUS, SUN_RADIUS]) hsun_pos
    have hperp := pythag_3_nonneg
      (v3sub sat (v3smul (dot3 sat (v3smul (1 / pythag_3 sun) sun)) (v3smul (1 / pythag_3 sun) sun)))
    linarith
  · right
    simp [SOLAR_CONSTANT_W_PER_M2]

/-- Witness for the C5 theorem at the sun-side concrete geometry. -/
theorem cone_irradiance_never_penumbra_witness :
    calculate_sun_irradiance_received_w_per_m2
      ⟨EARTH_RADIUS + 400000, 0, 0⟩ ⟨AU_M, 0, 0⟩ = some 0 ∨
    calculate_sun_irradiance_received_w_per_m2
      ⟨EARTH_RADIUS + 400000, 0, 0⟩ ⟨AU_M, 0, 0⟩ = some 1361 := by
  have hsat : pythag_3 ⟨EARTH_RADIUS + 400000, 0, 0⟩ = EARTH_RADIUS + 400000 := by
    rw [pythag_3_axis_abs, abs_of_nonneg (by norm_num [EARTH_RADIUS])]
  have hsun : pythag_3 ⟨AU_M, 0, 0⟩ = AU_M := by
    rw [pythag_3_axis_abs, abs_of_nonneg (by norm_num [AU_M])]
  exact cone_irradiance_never_penumbra _ _
    (by rw [hsun]; norm_num [AU_M]) (by rw [hsun]; norm_num [AU_M])
    (by rw [hsat]; norm_num [EARTH_RADIUS]) (by rw [hsat]; norm_num [EARTH_RADIUS])

/-- C2 (code evaluated at the claim's input): with the satellite directly
behind the Earth on the anti-sun side, at ITRF position with x equal to
minus the Earth radius plus 400 km, and the sun on the plus-x axis at 1 AU,
the cone-based model returns full sunlight, 1361 W per square metre, not
the 0 the claim (and the eclipse doc comment of the function) require: the
signed projection onto the Earth-to-Sun axis is negative there and the
first branch treats every negative projection as sunlit. -/
theorem cone_irradiance_behind_earth_returns_full_sun :
    calculate_sun_irradiance_received_w_per_m2
      ⟨-(EARTH_RADIUS + 400000), 0, 0⟩ ⟨AU_M, 0, 0⟩ = some 1361 := by
  have hsat : pythag_3 ⟨-(EARTH_RADIUS + 400000), 0, 0⟩ = EARTH_RADIUS + 400000 := by
    rw [pythag_3_axis_abs, abs_neg, abs_of_nonneg (by norm_num [EARTH_RADIUS])]
  have hsun : pythag_3 ⟨AU_M, 0, 0⟩ = AU_M := by
    rw [pythag_3_axis_abs, abs_of_nonneg (by norm_num [AU_M])]
  simp only [calculate_sun_irradiance_received_w_per_m2, hsat, hsun]
  rw [if_neg (by push_neg; constructor <;> norm_num [AU_M]),
    if_neg (by push_neg; constructor <;> norm_num [EARTH_RADIUS])]
  rw [if_pos]
  · simp [SOLAR_CONSTANT_W_PER_M2]
  · simp only [dot3, v3smul]
    norm_num [EARTH_RADIUS, AU_M]

/-- C3 (code evaluated at the claim's input): with the satellite on the
sun side at ITRF position with x equal to the Earth radius plus 400 km and
the sun on the plus-x axis at 1 AU, the cone-based model returns 0, not
1361 plus or minus 1 as the claim requires for both models: on the sunward
axis the computed umbra radius is positive (about 6.9e8 m) and the
perpendicular distance is zero, so the umbra branch fires. -/
theorem cone_irradiance_sun_side_returns_zero :
    calculate_sun_irradiance_received_w_per_m2
      ⟨EARTH_RADIUS + 400000, 0, 0⟩ ⟨AU_M, 0, 0⟩ = some 0 := by
  have hsat : pythag_3 ⟨EARTH_RADIUS + 400000, 0, 0⟩ = EARTH_RADIUS + 400000 := by
    rw [pythag_3_axis_abs, abs_of_nonneg (by norm_num [EARTH_RADIUS])]
  have hsun : pythag_3 ⟨AU_M, 0, 0⟩ = AU_M := by
    rw [pythag_3_axis_abs, abs_of_nonneg (by norm_num [AU_M])]
  have hproj : dot3 ⟨EARTH_RADIUS + 400000, 0, 0⟩ (v3smul (1 / AU_M) ⟨AU_M, 0, 0⟩)
      = EARTH_RADIUS + 400000 := by
    simp only [dot3, v3smul]
    norm_num [AU_M]
  have hperp : pythag_3 (v3sub ⟨EARTH_RADIUS + 400000, 0, 0⟩
      (v3smul (EARTH_RADIUS + 400000) (v3smul (1 / AU_M) ⟨AU_M, 0, 0⟩))) = 0 := by
    have hv : v3sub ⟨EARTH_RADIUS + 400000, 0, 0⟩
        (v3smul (EARTH_RADIUS + 400000) (v3smul (1 / AU_M) ⟨AU_M, 0, 0⟩))
        = ⟨0, 0, 0⟩ := by
      simp only [v3sub, v3smul]
      norm_num [AU_M]
    rw [hv, pythag_3_axis_abs, abs_zero]
  simp only [calculate_sun_irradiance_received_w_per_m2, hsat, hsun]
  rw [if_neg (by push_neg; constructor <;> norm_num [AU_M]),
    if_neg (by push_neg; constructor <;> norm_num [EARTH_RADIUS])]
  rw [hproj, if_neg (by norm_num [EARTH_RADIUS]), hperp, if_pos]
  apply mul_pos_of_neg_of_neg
  · norm_num [EARTH_RADIUS, AU_M]
  · norm_num [EARTH_RADIUS, SUN_RADIUS, AU_M]

lemma rustFract_eq_fract {x : ℝ} (hx : 0 ≤ x) : rustFract x = Int.fract x := by
  unfold rustFract rustTrunc
  rw [if_pos hx, Int.self_sub_floor]

/-- C7: for a longitude between -180 and 180 degrees and any instant with
non-negative Julian date (every UTC calendar instant), the local solar time
lies in the half-open interval from 0 to 24 and equals the fractional UTC
day times 24 plus one fifteenth of the longitude, wrapped into that
interval. -/
theorem local_solar_time_in_range_and_wraps (longitude_deg t : ℝ)
    (hlon1 : -180 ≤ longitude_deg) (hlon2 : longitude_deg ≤ 180)
    (ht : 0 ≤ jdOf t) :
    0 ≤ calculate_local_solar_time_hours longitude_deg t ∧
    calculate_local_solar_time_hours longitude_deg t < 24 ∧
    calculate_local_solar_time_hours longitude_deg t
      = wrap24 (Int.fract (jdOf t + 0.5) * 24 + longitude_deg / 15) := by
  have h05 : (0 : ℝ) ≤ jdOf t + 0.5 := by linarith
  have hfr : rustFract (jdOf t + 0.5) = Int.fract (jdOf t + 0.5) := rustFract_eq_fract h05
  set u := Int.fract (jdOf t + 0.5) with hu
  have hu0 : 0 ≤ u := Int.fract_nonneg _
  have hu1 : u < 1 := Int.fract_lt_one _
  have hlo : (-12 : ℝ) ≤ longitude_deg / 15 := by
    rw [le_div_iff₀ (by norm_num : (0 : ℝ) < 15)]
    linarith
  set x := u * 24 + longitude_deg / 15 with hx
  have hxpos : 0 ≤ (x + 24) / 24 := by
    apply div_nonneg _ (by norm_num)
    simp only [hx]
    linarith
  have hcode : calculate_local_solar_time_hours longitude_deg t
      = x + 24 - 24 * ⌊(x + 24) / 24⌋ := by
    simp only [calculate_local_solar_time_hours, hfr, rustRem, rustTrunc, if_pos hxpos, hx]
  have hfloor : ⌊(x + 24) / 24⌋ = ⌊x / 24⌋ + 1 := by
    have h24 : (x + 24) / 24 = x / 24 + 1 := by ring
    rw [h24, Int.floor_add_one]
  have hmain : calculate_local_solar_time_hours longitude_deg t
      = 24 * Int.fract (x / 24) := by
    rw [hcode, hfloor, Int.fract]
    push_cast
    ring
  refine ⟨?_, ?_, ?_⟩
  · rw [hmain]
    have := Int.fract_nonneg (x / 24)
    linarith
  · rw [hmain]
    have := Int.fract_lt_one (x / 24)
    linarith
  · rw [hmain, wrap24, Int.fract]
    ring

/-- Witness for the C7 theorem: longitude 180 degrees at the Unix epoch
instant. -/
theorem local_solar_time_in_range_and_wraps_witness :
    0 ≤ calculate_local_solar_time_hours 180 0 ∧
    calculate_local_solar_time_hours 180 0 < 24 ∧
    calculate_local_solar_time_hours 180 0
      = wrap24 (Int.fract (jdOf 0 + 0.5) * 24 + 180 / 15) :=
  local_solar_time_in_range_and_wraps 180 0 (by norm_num) (by norm_num)
    (by norm_num [jdOf])

/-- C10: GroundStation::new fails exactly when the latitude leaves the
closed interval from -90 to 90 degrees or the longitude leaves the closed
interval from -180 to 180 degrees, and on success the constructed station
carries precisely the given field values with an unfilled ECEF cache. -/
theorem groundStation_new_spec (name : String) (latitude_deg longitude_deg : ℝ)
    (elevation_m : Option ℝ) (altitude_m min_elevation_deg : ℝ) :
    ((∃ e, GroundStation.new name latitude_deg longitude_deg elevation_m
        altitude_m min_elevation_deg = Except.error e) ↔
      (latitude_deg < -90 ∨ 90 < latitude_deg ∨
        longitude_deg < -180 ∨ 180 < longitude_deg)) ∧
    (∀ s, GroundStation.new name latitude_deg longitude_deg elevation_m
        altitude_m min_elevation_deg = Except.ok s →
      s.name = name ∧ s.latitude_deg = latitude_deg ∧
      s.longitude_deg = longitude_deg ∧ s.elevation_m = elevation_m ∧
      s.altitude_m = altitude_m ∧ s.min_elevation_deg = min_elevation_deg ∧
      s.ecef_cache = none) := by
  by_cases hlat : -90 ≤ latitude_deg ∧ latitude_deg ≤ 90
  · by_cases hlon : -180 ≤ longitude_deg ∧ longitude_deg ≤ 180
    · rw [GroundStation.new, if_neg (not_not_intro hlat), if_neg (not_not_intro hlon)]
      refine ⟨⟨fun he => ?_, fun h => ?_⟩, fun s hs => ?_⟩
      · obtain ⟨e, he⟩ := he
        exact absurd he (by simp)
      · exfalso
        rcases h with h | h | h | h <;> linarith [hlat.1, hlat.2, hlon.1, hlon.2]
      · injection hs with h
        subst h
        exact ⟨rfl, rfl, rfl, rfl, rfl, rfl, rfl⟩
    · rw [GroundStation.new, if_neg (not_not_intro hlat), if_pos hlon]
      push_neg at hlon
      refine ⟨⟨fun _ => ?_, fun _ => ⟨_, rfl⟩⟩, fun s hs => absurd hs (by simp)⟩
      rcases le_or_lt (-180) longitude_deg with h | h
      · exact Or.inr (Or.inr (Or.inr (hlon h)))
      · exact Or.inr (Or.inr (Or.inl h))
  · rw [GroundStation.new, if_pos hlat]
    push_neg at hlat
    refine ⟨⟨fun _ => ?_, fun _ => ⟨_, rfl⟩⟩, fun s hs => absurd hs (by simp)⟩
    rcases le_or_lt (-90) latitude_deg with h | h
    · exact Or.inr (Or.inl (hlat h))
    · exact Or.inl h

/-- Witness for the C10 theorem: an in-range station and an out-of-range
latitude. -/
theorem groundStation_new_spec_witness :
    (∃ e, GroundStation.new "gs" 91 0 none 0 5 = Except.error e) ∧
    (∀ s, GroundStation.new "gs" 45 (-114) (some 1269) 2.5 5 = Except.ok s →
      s.latitude_deg = 45 ∧ s.ecef_cache = none) := by
  constructor
  · exact (groundStation_new_spec "gs" 91 0 none 0 5).1.mpr (by norm_num)
  · intro s hs
    obtain ⟨-, h2, -, -, -, -, h7⟩ :=
      (groundStation_new_spec "gs" 45 (-114) (some 1269) 2.5 5).2 s hs
    exact ⟨h2, h7⟩

/-! Inversion lemmas for the step function. -/

lemma step_ok_cases {tau : Type} (env : Env tau) (run : SimulationRun tau)
    (rec : SimulationStateAtStep) (run' : SimulationRun tau)
    (h : run.step env = (Except.ok rec, run')) :
    ∃ rv, (env.propagate run.satkit_tle_mut run.current_sim_time).2 = some rv ∧
      rec.time = run.current_sim_time ∧
      rec.position_itrf = env.temeToItrf
        (if run.current_sim_time < maxTfTime then run.current_sim_time else maxTfTime) rv.1 ∧
      rec.velocity_itrf = env.temeToItrf
        (if run.current_sim_time < maxTfTime then run.current_sim_time else maxTfTime) rv.2 ∧
      rec.hours_since_epoch = (run.current_sim_time +
        run.initial.simulation_settings.step_interval_hours * usPerHour -
        run.initial.tle.epoch) / usPerHour ∧
      rec.is_deorbited = decide (calculate_elevation_from_location_km
        (v3smul (1 / 1000) (env.temeToItrf
          (if run.current_sim_time < maxTfTime then run.current_sim_time else maxTfTime)
          rv.1)) < 100) ∧
      run'.initial = run.initial ∧
      run'.satkit_tle_mut = (env.propagate run.satkit_tle_mut run.current_sim_time).1 ∧
      run'.current_sim_time = run.current_sim_time +
        run.initial.simulation_settings.step_interval_hours * usPerHour ∧
      run'.latest_telemetry = some rec := by
  simp only [SimulationRun.step] at h
  split at h
  · simp at h
  · rename_i rv hrv
    split at h
    · rename_i ia ic ha hc
      injection h with h1 h2
      injection h1 with h1
      subst h1
      subst h2
      exact ⟨rv, hrv, rfl, rfl, rfl, rfl, rfl, rfl, rfl, rfl, rfl⟩
    · simp at h

lemma step_sgp4_error_cases {tau : Type} (env : Env tau) (run run' : SimulationRun tau)
    (h : run.step env = (Except.error StepErr.sgp4Error, run')) :
    run' = { run with
      satkit_tle_mut := (env.propagate run.satkit_tle_mut run.current_sim_time).1 } := by
  simp only [SimulationRun.step] at h
  split at h
  · injection h with h1 h2
    exact h2.symm
  · split at h
    · simp at h
    · simp at h

/-- C1: a successful step stamps the record with the pre-advance simulation
time, advances the clock by exactly the step interval, and writes the
post-advance clock into the hours_since_epoch field, that is the entry time
minus the epoch, in hours, plus the step interval (times are microsecond
counts, so advancing by the interval adds the interval times usPerHour). -/
theorem step_time_and_clock_contract {tau : Type} (env : Env tau)
    (run : SimulationRun tau) (rec : SimulationStateAtStep) (run' : SimulationRun tau)
    (h : run.step env = (Except.ok rec, run')) :
    rec.time = run.current_sim_time ∧
    run'.current_sim_time = run.current_sim_time +
      run.initial.simulation_settings.step_interval_hours * usPerHour ∧
    rec.hours_since_epoch =
      (run.current_sim_time - run.initial.tle.epoch) / usPerHour +
      run.initial.simulation_settings.step_interval_hours := by
  obtain ⟨rv, -, ht, -, -, hh, -, -, -, hct, -⟩ := step_ok_cases env run rec run' h
  refine ⟨ht, hct, ?_⟩
  rw [hh]
  have hus : usPerHour ≠ 0 := by norm_num [usPerHour]
  field_simp
  ring

/-- C8: on a successful step the TEME to ITRF rotation is applied at the
minimum of the current simulation time and the fixed horizon instant, and
the clamp leaves the simulation clock advance untouched. -/
theorem step_clamps_transform_time {tau : Type} (env : Env tau)
    (run : SimulationRun tau) (rec : SimulationStateAtStep) (run' : SimulationRun tau)
    (h : run.step env = (Except.ok rec, run')) :
    ∃ rv, (env.propagate run.satkit_tle_mut run.current_sim_time).2 = some rv ∧
      rec.position_itrf = env.temeToItrf (min run.current_sim_time maxTfTime) rv.1 ∧
      rec.velocity_itrf = env.temeToItrf (min run.current_sim_time maxTfTime) rv.2 ∧
      run'.current_sim_time = run.current_sim_time +
        run.initial.simulation_settings.step_interval_hours * usPerHour := by
  obtain ⟨rv, hp, -, hpos, hvel, -, -, -, -, hct, -⟩ := step_ok_cases env run rec run' h
  have hmin : (if run.current_sim_time < maxTfTime then run.current_sim_time else maxTfTime)
      = min run.current_sim_time maxTfTime := by
    rcases lt_or_ge run.current_sim_time maxTfTime with hlt | hge
    · rw [if_pos hlt, min_eq_left hlt.le]
    · rw [if_neg (not_lt.mpr hge), min_eq_right hge]
  rw [hmin] at hpos hvel
  exact ⟨rv, hp, hpos, hvel, hct⟩

/-- C9: when a step fails with the SGP4 propagation error, the run's
observable state is untouched: the clock, the stored telemetry and the
hours-since-epoch value all keep their previous values (only the internal
satkit TLE working copy may have been mutated by the propagator). -/
theorem step_error_preserves_observable_state {tau : Type} (env : Env tau)
    (run run' : SimulationRun tau)
    (h : run.step env = (Except.error StepErr.sgp4Error, run')) :
    run'.current_sim_time = run.current_sim_time ∧
    run'.latest_telemetry = run.latest_telemetry ∧
    run'.hoursSinceEpoch = run.hoursSinceEpoch := by
  have h2 := step_sgp4_error_cases env run run' h
  subst h2
  exact ⟨rfl, rfl, rfl⟩

/-! Concrete environment and runs used by the witnesses: identity frame
transforms, the sun fixed on the plus-x axis at 1 AU, and a propagator that
places the satellite on the x-axis at the radius held in the TLE working
copy. -/

def envX : Env ℝ where
  propagate := fun r _ => (r, some (⟨r, 0, 0⟩, ⟨0, 0, 0⟩))
  temeToItrf := fun _ v => v
  sunItrf := fun _ => ⟨AU_M, 0, 0⟩
  density := fun _ _ _ _ _ => 0
  latitudeDeg := fun _ => 0
  longitudeDeg := fun _ => 0
  stationEcef := fun _ => ⟨EARTH_RADIUS, 0, 0⟩
  toSatkitTle := fun _ => EARTH_RADIUS + 400000

/-- Variant whose propagated radius is low enough to count as deorbited. -/
def envXLow : Env ℝ := { envX with toSatkitTle := fun _ => EARTH_RADIUS + 50000 }

/-- Variant whose propagation always reports an SGP4 error. -/
def envXFail : Env ℝ := { envX with propagate := fun r _ => (r, none) }

def tle0 : TleData :=
  { name := "sat", intl_desig := "", sat_num := 0, desig_year := 0, desig_launch := 0,
    desig_piece := "", epoch := 0, mean_motion_dot := 0, mean_motion_dot_dot := 0,
    bstar := 0, ephem_type := 0, element_num := 0, inclination := 0, raan := 0,
    eccen := 0, arg_of_perigee := 0, mean_anomaly := 0, mean_motion := 15, rev_num := 0 }

def settings0 : SimulationSettings :=
  { max_days := 1, step_interval_hours := 1, drag_power_enable_space_weather := false }

def initial0 : InitialSimulationState :=
  { tle := tle0, ground_stations := [],
    satellite := { name := "sat", drag_coefficient := 2.5, drag_area_m2 := 0.01 },
    simulation_settings := settings0 }

def run0 : SimulationRun ℝ := SimulationRun.new envX initial0

def runLow : SimulationRun ℝ := SimulationRun.new envXLow initial0

def runFail : SimulationRun ℝ := SimulationRun.new envXFail initial0

lemma step_ok_of {tau : Type} (env : Env tau) (run : SimulationRun tau)
    (rv : V3 × V3) (va vc : ℝ)
    (hp : (env.propagate run.satkit_tle_mut run.current_sim_time).2 = some rv)
    (ha : calculate_sun_irradiance_received_approx_w_per_m2
      (env.temeToItrf
        (if run.current_sim_time < maxTfTime then run.current_sim_time else maxTfTime) rv.1)
      (env.sunItrf run.current_sim_time) = some va)
    (hc : calculate_sun_irradiance_received_w_per_m2
      (env.temeToItrf
        (if run.current_sim_time < maxTfTime then run.current_sim_time else maxTfTime) rv.1)
      (env.sunItrf run.current_sim_time) = some vc) :
    ∃ rec run', run.step env = (Except.ok rec, run') := by
  simp only [SimulationRun.step, hp, ha, hc]
  exact ⟨_, _, rfl⟩

lemma pythag_3_sunX : pythag_3 ⟨AU_M, 0, 0⟩ = AU_M := by
  rw [pythag_3_axis_abs, abs_of_nonneg (by norm_num [AU_M])]

lemma step_run0_ok : ∃ rec run', run0.step envX = (Except.ok rec, run') := by
  have hsat : pythag_3 ⟨EARTH_RADIUS + 400000, 0, 0⟩ = EARTH_RADIUS + 400000 := by
    rw [pythag_3_axis_abs, abs_of_nonneg (by norm_num [EARTH_RADIUS])]
  obtain ⟨va, hva, -, -⟩ := approx_irradiance_range
    ⟨EARTH_RADIUS + 400000, 0, 0⟩ ⟨AU_M, 0, 0⟩
    (by rw [pythag_3_sunX]; norm_num [AU_M]) (by rw [pythag_3_sunX]; norm_num [AU_M])
    (by rw [hsat]; norm_num [EARTH_RADIUS]) (by rw [hsat]; norm_num [EARTH_RADIUS])
  obtain ⟨vc, hvc, -, -⟩ := cone_irradiance_range
    ⟨EARTH_RADIUS + 400000, 0, 0⟩ ⟨AU_M, 0, 0⟩
    (by rw [pythag_3_sunX]; norm_num [AU_M]) (by rw [pythag_3_sunX]; norm_num [AU_M])
    (by rw [hsat]; norm_num [EARTH_RADIUS]) (by rw [hsat]; norm_num [EARTH_RADIUS])
  exact step_ok_of envX run0 (⟨EARTH_RADIUS + 400000, 0, 0⟩, ⟨0, 0, 0⟩) va vc rfl hva hvc

/-- Witness for the C1 theorem on a concrete environment and run. -/
theorem step_time_and_clock_contract_witness :
    ∃ rec run', run0.step envX = (Except.ok rec, run') ∧
      rec.time = run0.current_sim_time ∧
      run'.current_sim_time = run0.current_sim_time +
        run0.initial.simulation_settings.step_interval_hours * usPerHour ∧
      rec.hours_since_epoch =
        (run0.current_sim_time - run0.initial.tle.epoch) / usPerHour +
        run0.initial.simulation_settings.step_interval_hours := by
  obtain ⟨rec, run', hstep⟩ := step_run0_ok
  exact ⟨rec, run', hstep, step_time_and_clock_contract envX run0 rec run' hstep⟩

/-- Witness for the C8 theorem on a concrete environment and run. -/
theorem step_clamps_transform_time_witness :
    ∃ rec run', run0.step envX = (Except.ok rec, run') ∧
      ∃ rv, (envX.propagate run0.satkit_tle_mut run0.current_sim_time).2 = some rv ∧
        rec.position_itrf = envX.temeToItrf (min run0.current_sim_time maxTfTime) rv.1 ∧
        rec.velocity_itrf = envX.temeToItrf (min run0.current_sim_time maxTfTime) rv.2 ∧
        run'.current_sim_time = run0.current_sim_time +
          run0.initial.simulation_settings.step_interval_hours * usPerHour := by
  obtain ⟨rec, run', hstep⟩ := step_run0_ok
  exact ⟨rec, run', hstep, step_clamps_transform_time envX run0 rec run' hstep⟩

/-- Witness for the C9 theorem on a concrete failing environment. -/
theorem step_error_preserves_observable_state_witness :
    ∃ run', runFail.step envXFail = (Except.error StepErr.sgp4Error, run') ∧
      run'.current_sim_time = runFail.current_sim_time ∧
      run'.latest_telemetry = runFail.latest_telemetry ∧
      run'.hoursSinceEpoch = runFail.hoursSinceEpoch := by
  have hstep : runFail.step envXFail = (Except.error StepErr.sgp4Error,
      { runFail with satkit_tle_mut :=
        (envXFail.propagate runFail.satkit_tle_mut runFail.current_sim_time).1 }) := rfl
  exact ⟨_, hstep, step_error_preserves_observable_state envXFail runFail _ hstep⟩

/-! Lemmas about the step-loop protocol. -/

lemma step_preserves_initial {tau : Type} (env : Env tau) (run : SimulationRun tau) :
    (run.step env).2.initial = run.initial := by
  simp only [SimulationRun.step]
  split
  · rfl
  · split <;> rfl

lemma step_ok_latest {tau : Type} (env : Env tau) (run : SimulationRun tau)
    (rec : SimulationStateAtStep) (run' : SimulationRun tau)
    (h : run.step env = (Except.ok rec, run')) :
    run'.latest_telemetry = some rec := by
  obtain ⟨-, -, -, -, -, -, -, -, -, -, hl⟩ := step_ok_cases env run rec run' h
  exact hl

lemma innerLoop_preserves_initial {tau : Type} (env : Env tau) (elapsed : ℕ → Bool)
    (mh sh : ℝ) : ∀ (fuel k : ℕ) (run : SimulationRun tau),
    (innerLoop env elapsed mh sh fuel k run).2.1.initial = run.initial := by
  intro fuel
  induction fuel with
  | zero => intro k run; rfl
  | succ fuel ih =>
    intro k run
    rw [innerLoop]
    by_cases hmax : mh ≤ run.hoursSinceEpoch
    · simp [hmax]
    · rcases hstep : run.step env with ⟨res, run'⟩
      have hinit : run'.initial = run.initial := by
        have hpi := step_preserves_initial env run
        rw [hstep] at hpi
        exact hpi
      rcases res with err | t
      · rcases err <;> simp [hmax, hstep, hinit]
      · by_cases hdeo : t.is_deorbited = true
        · simp [hmax, hstep, hdeo, hinit]
        · by_cases hel : elapsed k = true
          · simp [hmax, hstep, hdeo, hel, hinit]
          · simp only [hmax, if_neg, hstep, hdeo, hel, Bool.false_eq_true, if_false]
            rw [hinit.symm]
            exact ih (k + 1) run'

lemma innerLoop_deorbit {tau : Type} (env : Env tau) (elapsed : ℕ → Bool)
    (max_hours step_interval_h : ℝ) :
    ∀ (fuel k : ℕ) (run : SimulationRun tau) (j : ℕ) (rec : SimulationStateAtStep),
      (innerLoop env elapsed max_hours step_interval_h fuel k run).2.2[j]? =
        some (Except.ok rec) →
      rec.is_deorbited = true →
      (innerLoop env elapsed max_hours step_interval_h fuel k run).2.2.length = j + 1 ∧
      (innerLoop env elapsed max_hours step_interval_h fuel k run).1 =
        InnerRes.msg (Except.ok
          { done := true
            status_line := StatusLine.deorbited
              (max (rec.hours_since_epoch - step_interval_h) 0)
            latest_telemetry := some rec }) := by
  intro fuel
  induction fuel with
  | zero =>
    intro k run j rec hj hdeorb
    simp [innerLoop] at hj
  | succ fuel ih =>
    intro k run j rec hj hdeorb
    rw [innerLoop] at hj ⊢
    by_cases hmax : max_hours ≤ run.hoursSinceEpoch
    · rw [if_pos hmax] at hj
      simp at hj
    · rw [if_neg hmax] at hj ⊢
      rcases hstep : run.step env with ⟨res, run'⟩
      rw [hstep] at hj
      rcases res with err | t
      · rcases err
        · rcases j with _ | j <;> simp at hj
        · rcases j with _ | j <;> simp at hj
      · by_cases hdeo : t.is_deorbited = true
        · simp only [hdeo, if_true] at hj ⊢
          rcases j with _ | j
          · simp at hj
            subst hj
            refine ⟨rfl, ?_⟩
            rw [step_ok_latest env run t run' hstep]
          · simp at hj
        · simp only [hdeo] at hj ⊢
          by_cases hel : elapsed k = true
          · simp only [hel, if_true, Bool.false_eq_true, if_false] at hj
            rcases j with _ | j
            · simp at hj
              subst hj
              exact absurd hdeorb hdeo
            · simp at hj
          · simp only [hel, Bool.false_eq_true, if_false] at hj ⊢
            rcases j with _ | j
            · simp at hj
              subst hj
              exact absurd hdeorb hdeo
            · simp only [List.getElem?_cons_succ] at hj
              obtain ⟨hlen, hres⟩ := ih (k + 1) run' j rec hj hdeorb
              exact ⟨by simp [hlen], hres⟩

/-- C6: whenever a step call made inside the stepper loop returns telemetry
flagged is_deorbited, that step is the last step the loop performs on the
run, and the channel receives exactly one further message, which is final:
done is true, the status line reports the deorbit time as the telemetry's
hours_since_epoch minus the step interval clamped below at zero, and the
stored telemetry rides along; every earlier message was a non-final
progress message, and the worker loop terminates with that send. -/
theorem worker_loop_deorbit_terminal {tau : Type} (env : Env tau)
    (elapsed : ℕ → ℕ → Bool) (innerFuel : ℕ) :
    ∀ (outerFuel : ℕ) (run : SimulationRun tau) (j : ℕ) (rec : SimulationStateAtStep),
      (workerLoop env elapsed innerFuel outerFuel run).2.2[j]? = some (Except.ok rec) →
      rec.is_deorbited = true →
      (workerLoop env elapsed innerFuel outerFuel run).2.2.length = j + 1 ∧
      ∃ pre, (workerLoop env elapsed innerFuel outerFuel run).1 = pre ++
          [Except.ok
            { done := true
              status_line := StatusLine.deorbited (max (rec.hours_since_epoch -
                run.initial.simulation_settings.step_interval_hours) 0)
              latest_telemetry := some rec }] ∧
        ∀ m ∈ pre, ∃ o, m = Except.ok o ∧ o.done = false := by
  intro outerFuel
  induction outerFuel with
  | zero =>
    intro run j rec hj hdeorb
    simp [workerLoop] at hj
  | succ fuel ih =>
    intro run j rec hj hdeorb
    simp only [workerLoop] at hj ⊢
    rcases hinner : innerLoop env (elapsed fuel)
        (run.initial.simulation_settings.max_days * 24)
        run.initial.simulation_settings.step_interval_hours innerFuel 0 run
      with ⟨res, run', trace⟩
    rw [hinner] at hj
    cases res with
    | fuelOut =>
      have hj' : (innerLoop env (elapsed fuel)
          (run.initial.simulation_settings.max_days * 24)
          run.initial.simulation_settings.step_interval_hours innerFuel 0 run).2.2[j]? =
          some (Except.ok rec) := by
        rw [hinner]
        exact hj
      have hres := (innerLoop_deorbit env (elapsed fuel) _ _ innerFuel 0 run j rec
        hj' hdeorb).2
      rw [hinner] at hres
      simp at hres
    | panicked =>
      have hj' : (innerLoop env (elapsed fuel)
          (run.initial.simulation_settings.max_days * 24)
          run.initial.simulation_settings.step_interval_hours innerFuel 0 run).2.2[j]? =
          some (Except.ok rec) := by
        rw [hinner]
        exact hj
      have hres := (innerLoop_deorbit env (elapsed fuel) _ _ innerFuel 0 run j rec
        hj' hdeorb).2
      rw [hinner] at hres
      simp at hres
    | msg m =>
      by_cases hdone : doneNow m = true
      · simp only [hdone, eq_self_iff_true, if_true] at hj ⊢
        have hj' : (innerLoop env (elapsed fuel)
            (run.initial.simulation_settings.max_days * 24)
            run.initial.simulation_settings.step_interval_hours innerFuel 0 run).2.2[j]? =
            some (Except.ok rec) := by
          rw [hinner]
          exact hj
        obtain ⟨hlen, hres⟩ := innerLoop_deorbit env (elapsed fuel) _ _ innerFuel 0 run j rec
          hj' hdeorb
        rw [hinner] at hlen hres
        simp only [InnerRes.msg.injEq] at hres
        subst hres
        exact ⟨hlen, [], by simp, by simp⟩
      · rw [Bool.not_eq_true] at hdone
        simp only [hdone, Bool.false_eq_true, if_false] at hj ⊢
        by_cases hjlt : j < trace.length
        · rw [List.getElem?_append, if_pos hjlt] at hj
          have hj' : (innerLoop env (elapsed fuel)
              (run.initial.simulation_settings.max_days * 24)
              run.initial.simulation_settings.step_interval_hours innerFuel 0 run).2.2[j]? =
              some (Except.ok rec) := by
            rw [hinner]
            exact hj
          have hres := (innerLoop_deorbit env (elapsed fuel) _ _ innerFuel 0 run j rec
            hj' hdeorb).2
          rw [hinner] at hres
          simp only [InnerRes.msg.injEq] at hres
          subst hres
          simp [doneNow] at hdone
        · push_neg at hjlt
          rw [List.getElem?_append, if_neg (not_lt.mpr hjlt)] at hj
          have hinit : run'.initial = run.initial := by
            have hpi := innerLoop_preserves_initial env (elapsed fuel)
              (run.initial.simulation_settings.max_days * 24)
              run.initial.simulation_settings.step_interval_hours innerFuel 0 run
            rw [hinner] at hpi
            exact hpi
          obtain ⟨hlen, pre', hmsgs, hpre⟩ := ih run' (j - trace.length) rec hj hdeorb
          refine ⟨?_, m :: pre', ?_, ?_⟩
          · simp only [List.length_append, hlen]
            omega
          · simp only [List.cons_append, List.cons.injEq, true_and]
            rw [hmsgs, hinit]
          · have hmdone : ∃ o, m = Except.ok o ∧ o.done = false := by
              cases m with
              | error e => simp [doneNow] at hdone
              | ok o => exact ⟨o, rfl, by simpa [doneNow] using hdone⟩
            intro m2 hm2
            rcases List.mem_cons.mp hm2 with h | h
            · rw [h]
              exact hmdone
            · exact hpre m2 h

lemma step_runLow_ok : ∃ rec run', runLow.step envXLow = (Except.ok rec, run') ∧
    rec.is_deorbited = true := by
  have hsat : pythag_3 ⟨EARTH_RADIUS + 50000, 0, 0⟩ = EARTH_RADIUS + 50000 := by
    rw [pythag_3_axis_abs, abs_of_nonneg (by norm_num [EARTH_RADIUS])]
  obtain ⟨va, hva, -, -⟩ := approx_irradiance_range
    ⟨EARTH_RADIUS + 50000, 0, 0⟩ ⟨AU_M, 0, 0⟩
    (by rw [pythag_3_sunX]; norm_num [AU_M]) (by rw [pythag_3_sunX]; norm_num [AU_M])
    (by rw [hsat]; norm_num [EARTH_RADIUS]) (by rw [hsat]; norm_num [EARTH_RADIUS])
  obtain ⟨vc, hvc, -, -⟩ := cone_irradiance_range
    ⟨EARTH_RADIUS + 50000, 0, 0⟩ ⟨AU_M, 0, 0⟩
    (by rw [pythag_3_sunX]; norm_num [AU_M]) (by rw [pythag_3_sunX]; norm_num [AU_M])
    (by rw [hsat]; norm_num [EARTH_RADIUS]) (by rw [hsat]; norm_num [EARTH_RADIUS])
  obtain ⟨rec, run', hstep⟩ := step_ok_of envXLow runLow
    (⟨EARTH_RADIUS + 50000, 0, 0⟩, ⟨0, 0, 0⟩) va vc rfl hva hvc
  refine ⟨rec, run', hstep, ?_⟩
  obtain ⟨rv, hp, -, -, -, -, hdeo, -, -, -, -⟩ := step_ok_cases envXLow runLow rec run' hstep
  have hrv : rv = (⟨EARTH_RADIUS + 50000, 0, 0⟩, ⟨0, 0, 0⟩) := by
    have h2 : some ((⟨EARTH_RADIUS + 50000, 0, 0⟩ : V3), (⟨0, 0, 0⟩ : V3)) = some rv := hp
    injection h2 with h2
    exact h2.symm
  subst hrv
  rw [hdeo]
  simp only [decide_eq_true_eq]
  show pythag_3 (v3smul (1 / 1000) ⟨EARTH_RADIUS + 50000, 0, 0⟩) - EARTH_RADIUS / 1000 < 100
  have hv : v3smul ((1 : ℝ) / 1000) ⟨EARTH_RADIUS + 50000, 0, 0⟩
      = ⟨1 / 1000 * (EARTH_RADIUS + 50000), 0, 0⟩ := by
    simp [v3smul]
  rw [hv, pythag_3_axis_abs, abs_of_nonneg (by norm_num [EARTH_RADIUS])]
  norm_num [EARTH_RADIUS]

/-- Witness for the C6 theorem: a worker run whose very first step reports
deorbit. -/
theorem worker_loop_deorbit_terminal_witness :
    ∃ rec, (workerLoop envXLow (fun _ _ => false) 1 1 runLow).2.2[0]? =
        some (Except.ok rec) ∧
      rec.is_deorbited = true ∧
      (workerLoop envXLow (fun _ _ => false) 1 1 runLow).2.2.length = 0 + 1 ∧
      ∃ pre, (workerLoop envXLow (fun _ _ => false) 1 1 runLow).1 = pre ++
          [Except.ok
            { done := true
              status_line := StatusLine.deorbited (max (rec.hours_since_epoch -
                runLow.initial.simulation_settings.step_interval_hours) 0)
              latest_telemetry := some rec }] ∧
        ∀ m ∈ pre, ∃ o, m = Except.ok o ∧ o.done = false := by
  obtain ⟨rec, run', hstep, hdeorb⟩ := step_runLow_ok
  have hmax : ¬(runLow.initial.simulation_settings.max_days * 24 ≤ runLow.hoursSinceEpoch) := by
    norm_num [runLow, SimulationRun.new, SimulationRun.hoursSinceEpoch, initial0,
      settings0, tle0, usPerHour]
  have htrace : (workerLoop envXLow (fun _ _ => false) 1 1 runLow).2.2 = [Except.ok rec] := by
    simp [workerLoop, innerLoop, hmax, hstep, hdeorb, doneNow]
  have hj : (workerLoop envXLow (fun _ _ => false) 1 1 runLow).2.2[0]? =
      some (Except.ok rec) := by
    rw [htrace]
    rfl
  obtain ⟨hlen, hconc⟩ := worker_loop_deorbit_terminal envXLow (fun _ _ => false) 1 1
    runLow 0 rec hj hdeorb
  exact ⟨rec, hj, hdeorb, hlen, hconc⟩

end SquidOrbit
